import Mathlib

/-
Verification of the Dash-TM scheduling/sales dashboard (src/dash-tm.py).
The file shallowly embeds the data-normalization, filtering and metric
aggregation logic of the dashboard: pandas DataFrame columns become fields
of a `Record`, DataFrame boolean-mask filtering becomes `List.filter`,
pandas scalar float results of unguarded division become the `PFloat` type
(value / NaN / infinity), and amounts are rationals (the sheet carries
exact two-decimal currency strings, so no floating-point rounding is
involved at the modeled granularity).
-/

namespace DashTM

/-! ### String machinery (modelling `str.strip`, `str.replace` on literal patterns) -/

/-- Whitespace test used by trimming; models the characters Python
`str.strip()` removes that can occur in sheet cells. -/
def isWS (c : Char) : Bool :=
  c == ' ' || c == '\t' || c == '\n' || c == '\r'

/-- Trim leading and trailing whitespace from a character list. -/
def trimChars (cs : List Char) : List Char :=
  ((cs.dropWhile isWS).reverse.dropWhile isWS).reverse

/-- Model of pandas `.str.strip()` on one cell. -/
def strTrim (s : String) : String :=
  String.mk (trimChars s.data)

/-- Model of `.str.replace('R$ ', '', regex=False)` (dash-tm.py line 89):
remove every occurrence of the three-character literal pattern,
left to right, non-overlapping. -/
def stripRS : List Char → List Char
  | 'R' :: '$' :: ' ' :: rest => stripRS rest
  | c :: rest => c :: stripRS rest
  | [] => []

/-- Model of the full replacement chain of dash-tm.py line 89:
remove the currency prefix, drop every dot (thousands separator),
then turn the decimal comma into a dot. -/
def normalizeValor (s : String) : String :=
  String.mk (((stripRS s.data).filter (fun c => c != '.')).map
    (fun c => if c = ',' then '.' else c))

/-- Model of `.replace('', '0')` (Series.replace, exact match) at the end of
line 89: an empty cell becomes the literal string zero. -/
def emptyToZero (s : String) : String :=
  if s = "" then "0" else s

/-! ### Numeric parsing (modelling `pd.to_numeric(errors='coerce')`) -/

/-- Split a character list at every occurrence of a separator character. -/
def splitOnChar (sep : Char) : List Char → List (List Char)
  | [] => [[]]
  | c :: rest =>
    let ps := splitOnChar sep rest
    if c = sep then [] :: ps
    else
      match ps with
      | [] => [[c]]
      | p :: qs => (c :: p) :: qs

/-- All characters are decimal digits. -/
def allDigits (cs : List Char) : Bool :=
  cs.all (fun c => c.isDigit)

/-- Natural number denoted by a digit string. -/
def natOfDigits (cs : List Char) : ℕ :=
  cs.foldl (fun a c => a * 10 + (c.toNat - 48)) 0

/-- Model of `pd.to_numeric(errors='coerce')` on one cell: an optional sign,
digits with at most one decimal dot and at least one digit parse to an exact
rational; anything else coerces to NaN, modeled as `none`.  (The pandas
parser also accepts exponent notation and surrounding whitespace; such
inputs do not occur in the modeled columns and are treated as unparseable.) -/
def parseDecimal (s : String) : Option ℚ :=
  let cs := s.data
  let signed : Bool × List Char :=
    match cs with
    | '-' :: rest => (true, rest)
    | '+' :: rest => (false, rest)
    | _ => (false, cs)
  match splitOnChar '.' signed.2 with
  | [ip] =>
    if allDigits ip && decide (1 ≤ ip.length) then
      some (if signed.1 then -(natOfDigits ip : ℚ) else (natOfDigits ip : ℚ))
    else none
  | [ip, fp] =>
    if allDigits ip && allDigits fp && decide (1 ≤ ip.length + fp.length) then
      let v : ℚ := (natOfDigits ip : ℚ) + (natOfDigits fp : ℚ) / ((10 : ℚ) ^ fp.length)
      some (if signed.1 then -v else v)
    else none
  | _ => none

/-- Full VALOR normalization of dash-tm.py lines 88-90: strip the currency
decorations, substitute the empty string by zero, coerce to a number and
default NaN to 0 (`fillna(0)`). -/
def parseAmount (s : String) : ℚ :=
  (parseDecimal (emptyToZero (normalizeValor s))).getD 0

/-! ### Date parsing (modelling `pd.to_datetime(format='%d/%m/%Y', errors='coerce')`) -/

/-- Calendar date.  Timestamps in the source compare chronologically; for
valid dates the numeric key below realises that order. -/
structure Date where
  year : ℕ
  month : ℕ
  day : ℕ
deriving DecidableEq

/-- Numeric encoding of a date; on valid dates the order of keys is the
chronological order used by pandas Timestamp comparison. -/
def Date.key (dt : Date) : ℕ :=
  dt.year * 10000 + dt.month * 100 + dt.day

/-- Boolean chronological comparison of dates. -/
def dateLeb (a b : Date) : Bool :=
  decide (a.key ≤ b.key)

/-- Closed-interval membership, inclusive at both ends, as in the
`>=` / `<=` mask pair of dash-tm.py lines 504-505 and 527-528. -/
def inRange (lo hi d : Date) : Bool :=
  dateLeb lo d && dateLeb d hi

/-- Gregorian leap-year rule (as used by Python datetime). -/
def leapYear (y : ℕ) : Bool :=
  (y % 4 = 0 && decide (y % 100 ≠ 0)) || y % 400 = 0

/-- Days in a month of a given year. -/
def daysInMonth (y m : ℕ) : ℕ :=
  if m = 2 then (if leapYear y then 29 else 28)
  else if m = 4 ∨ m = 6 ∨ m = 9 ∨ m = 11 then 30
  else 31

/-- Lexical layer of `%d/%m/%Y`: exactly three slash-separated digit groups,
day and month of one or two digits, year of up to four digits.  Returns the
day/month/year numbers without calendar validation. -/
def parseDMY (s : String) : Option (ℕ × ℕ × ℕ) :=
  match splitOnChar '/' s.data with
  | [ds, ms, ys] =>
    if allDigits ds && allDigits ms && allDigits ys
        && decide (1 ≤ ds.length) && decide (ds.length ≤ 2)
        && decide (1 ≤ ms.length) && decide (ms.length ≤ 2)
        && decide (1 ≤ ys.length) && decide (ys.length ≤ 4) then
      some (natOfDigits ds, natOfDigits ms, natOfDigits ys)
    else none
  | _ => none

/-- Calendar validity of a parsed day/month/year triple. -/
def validDMY : ℕ × ℕ × ℕ → Bool
  | (d, m, y) =>
    decide (1 ≤ m) && decide (m ≤ 12) && decide (1 ≤ d) && decide (d ≤ daysInMonth y m)

/-- Model of `pd.to_datetime(col, format='%d/%m/%Y', errors='coerce')` on one
cell (dash-tm.py lines 82-85): a string that does not match the format or
names an impossible calendar date coerces to NaT, modeled as `none`.
(Dates outside the pandas Timestamp range also coerce to NaT; the modeled
claims never instantiate such dates, so that bound is not repeated here.) -/
def parseDate (s : String) : Option Date :=
  match parseDMY s with
  | none => none
  | some (d, m, y) => if validDMY (d, m, y) then some ⟨y, m, d⟩ else none

/-! ### The record set (one row of the Agendamentos sheet after load_data) -/

/-- One normalized row, with the columns the dashboard reads.  String columns
carry the trimmed cell text; the two date columns and the sales-cycle column
are optional (NaT / NaN become `none`); VALOR_NUM is the parsed amount. -/
structure Record where
  data : Option Date
  venda : Option Date
  sdr : String
  closer : String
  funil : String
  produto : String
  status : String
  vendaRealizada : String
  valorNum : ℚ
  ciclo : Option ℚ
deriving DecidableEq

/-- Record with every field at its null representative; concrete inputs in
the theorems below override the fields they exercise. -/
def rec0 : Record :=
  { data := none, venda := none, sdr := "", closer := "", funil := ""
  , produto := "", status := "", vendaRealizada := "", valorNum := 0, ciclo := none }

/-- Index of a column name in the (already trimmed) header. -/
def findIdx (hdr : List String) (col : String) : Option ℕ :=
  hdr.indexOf? col

/-- Value of a named column in a row; `none` when the column is missing from
the header or the row is shorter than the header. -/
def getCell (hdr row : List String) (col : String) : Option String :=
  match findIdx hdr col with
  | none => none
  | some i => row.get? i

/-- Build one `Record` from a raw row, following load_data (dash-tm.py lines
76-101): dates through the `%d/%m/%Y` coercion, VALOR through the currency
chain, the five string columns trimmed, CICLO DE VENDAS through numeric
coercion.  A column missing from the header yields the field's null
representative (in the source the conversions are guarded by
`if col in df.columns`; every claim below evaluates rows whose relevant
columns are present). -/
def buildRecord (hdr row : List String) : Record :=
  { data := (getCell hdr row "DATA").bind parseDate
  , venda := (getCell hdr row "DIA DA VENDA").bind parseDate
  , sdr := strTrim ((getCell hdr row "SDR").getD "")
  , closer := strTrim ((getCell hdr row "CLOSER").getD "")
  , funil := strTrim ((getCell hdr row "FUNIL").getD "")
  , produto := (getCell hdr row "PRODUTO").getD ""
  , status := strTrim ((getCell hdr row "STATUS").getD "")
  , vendaRealizada := strTrim ((getCell hdr row "VENDA REALIZADA").getD "")
  , valorNum := match getCell hdr row "VALOR" with
      | some s => parseAmount s
      | none => 0
  , ciclo := (getCell hdr row "CICLO DE VENDAS").bind parseDecimal }

/-- Model of load_data (dash-tm.py lines 69-105): an empty raw matrix yields
the explicit no-data signal `none`; otherwise the first row is the header
(trimmed, line 79) and every remaining row becomes one `Record`. -/
def loadData (matrix : List (List String)) : Option (List Record) :=
  match matrix with
  | [] => none
  | hdr :: rows => some (rows.map (buildRecord (hdr.map strTrim)))

/-! ### Scalar metrics (create_metrics_cards and dashboard_geral, lines 107-153) -/

/-- Row count of the current view (`len(df)`). -/
def totalAgendamentos (df : List Record) : ℕ :=
  df.length

/-- Count of rows with STATUS equal to the literal Call Realizada. -/
def callsRealizadas (df : List Record) : ℕ :=
  (df.filter (fun r => decide (r.status = "Call Realizada"))).length

/-- Count of rows with VENDA REALIZADA equal to the literal Ganho. -/
def vendasGanhas (df : List Record) : ℕ :=
  (df.filter (fun r => decide (r.vendaRealizada = "Ganho"))).length

/-- Count of rows with STATUS equal to the literal No Show. -/
def noShows (df : List Record) : ℕ :=
  (df.filter (fun r => decide (r.status = "No Show"))).length

/-- Sum of VALOR_NUM over the rows whose sale was won (line 112). -/
def receitaTotal (df : List Record) : ℚ :=
  ((df.filter (fun r => decide (r.vendaRealizada = "Ganho"))).map (fun r => r.valorNum)).sum

/-- The guarded scalar rate pattern of dash-tm.py lines 139-141, 218 and 284:
`(n / d * 100) if d > 0 else 0`. -/
def guardedRate (n d : ℕ) : ℚ :=
  if 0 < d then (n : ℚ) / (d : ℚ) * 100 else 0

/-- Show rate of dashboard_geral (line 139). -/
def taxaShow (df : List Record) : ℚ :=
  guardedRate (callsRealizadas df) (totalAgendamentos df)

/-- Conversion rate of dashboard_geral (line 140). -/
def taxaConversao (df : List Record) : ℚ :=
  guardedRate (vendasGanhas df) (callsRealizadas df)

/-- No-show rate of dashboard_geral (line 141). -/
def taxaNoShow (df : List Record) : ℚ :=
  guardedRate (noShows df) (totalAgendamentos df)

/-! ### Pandas float results of unguarded Series division -/

/-- Result of a pandas float computation: a finite value, NaN, or positive
infinity.  Dividing two nonnegative integer Series in pandas produces NaN
at 0/0 and infinity at n/0 with n positive, instead of raising. -/
inductive PFloat where
  | val : ℚ → PFloat
  | nan : PFloat
  | inf : PFloat
deriving DecidableEq

/-- Unguarded pandas division of two nonnegative integer count columns, as in
`vendedor_stats['VENDA REALIZADA'] / vendedor_stats['STATUS']` (line 243). -/
def pdiv (n d : ℕ) : PFloat :=
  if d = 0 then (if n = 0 then PFloat.nan else PFloat.inf)
  else PFloat.val ((n : ℚ) / (d : ℚ))

/-- Multiplication by 100 on a pandas float (NaN and infinity absorb). -/
def pmul100 : PFloat → PFloat
  | PFloat.val q => PFloat.val (q * 100)
  | PFloat.nan => PFloat.nan
  | PFloat.inf => PFloat.inf

/-- Round half to even to an integer, the rounding used by numpy `.round`. -/
def rhe (q : ℚ) : ℤ :=
  let f := ⌊q⌋
  let r := q - (f : ℚ)
  if r < 1 / 2 then f
  else if 1 / 2 < r then f + 1
  else if f % 2 = 0 then f else f + 1

/-- Round to one decimal place, half to even (numpy `.round(1)`). -/
def round1 (q : ℚ) : ℚ :=
  ((rhe (q * 10) : ℚ)) / 10

/-- numpy `.round(1)` on a pandas float: NaN and infinity pass through. -/
def round1P : PFloat → PFloat
  | PFloat.val q => PFloat.val (round1 q)
  | PFloat.nan => PFloat.nan
  | PFloat.inf => PFloat.inf

/-! ### Sorted unique values (selector option lists, pandas groupby keys) -/

/-- Lexicographic comparison of character lists by code point, the order
Python uses on strings. -/
def charListLe : List Char → List Char → Bool
  | [], _ => true
  | _ :: _, [] => false
  | a :: as, b :: bs =>
    if a < b then true else if b < a then false else charListLe as bs

/-- Boolean string comparison (Python string order). -/
def strLeb (a b : String) : Bool :=
  charListLe a.data b.data

/-- Insert into a sorted string list. -/
def insertStr (x : String) : List String → List String
  | [] => [x]
  | y :: ys => if strLeb x y then x :: y :: ys else y :: insertStr x ys

/-- Insertion sort on strings, ascending. -/
def sortStr : List String → List String
  | [] => []
  | x :: xs => insertStr x (sortStr xs)

/-- Model of `sorted(series.dropna().unique().tolist())` on a string column
and of the sorted group keys produced by `groupby`: the distinct values in
ascending order. -/
def sortedUnique (l : List String) : List String :=
  sortStr l.dedup

/-! ### Per-closer dashboard (dashboard_vendedores, lines 200-264) -/

/-- One row of the per-closer comparison table `vendedor_stats`
(lines 237-245): calls with STATUS Call Realizada, sales with VENDA
REALIZADA Ganho, revenue summed over won sales, and the conversion rate
computed by unguarded pandas division of the two counts, times 100,
rounded to one decimal. -/
structure VRow where
  vendedor : String
  calls : ℕ
  vendas : ℕ
  receita : ℚ
  taxa : PFloat
deriving DecidableEq

/-- The `vendedor_stats` aggregation for one group key. -/
def closerGroupRow (df : List Record) (k : String) : VRow :=
  { vendedor := k
  , calls := callsRealizadas (df.filter (fun r => decide (r.closer = k)))
  , vendas := vendasGanhas (df.filter (fun r => decide (r.closer = k)))
  , receita := receitaTotal (df.filter (fun r => decide (r.closer = k)))
  , taxa := round1P (pmul100 (pdiv
      (vendasGanhas (df.filter (fun r => decide (r.closer = k))))
      (callsRealizadas (df.filter (fun r => decide (r.closer = k)))))) }

/-- Full per-closer comparison table: one row per distinct CLOSER value, in
the sorted key order pandas groupby produces.  Both bar charts of the view
are drawn from these rows. -/
def vendedorStats (df : List Record) : List VRow :=
  (sortedUnique (df.map (fun r => r.closer))).map (closerGroupRow df)

/-- The four headline metrics of dashboard_vendedores (lines 216-219),
computed from the selection-filtered frame. -/
structure HeadlineV where
  calls : ℕ
  vendas : ℕ
  taxa : ℚ
  receita : ℚ
deriving DecidableEq

/-- Headline metric computation of dashboard_vendedores. -/
def headlineVendedores (df : List Record) : HeadlineV :=
  { calls := callsRealizadas df
  , vendas := vendasGanhas df
  , taxa := guardedRate (vendasGanhas df) (callsRealizadas df)
  , receita := receitaTotal df }

/-- dashboard_vendedores as a function of the incoming filtered frame and
the closer selector: the headline metrics use the frame restricted to the
selected closer (lines 208-211), the comparison table uses the full frame
(line 237). -/
def dashboardVendedores (df : List Record) (sel : String) : HeadlineV × List VRow :=
  let dfF := if sel = "Todos" then df else df.filter (fun r => decide (r.closer = sel))
  (headlineVendedores dfF, vendedorStats df)

/-! ### Sales-cycle statistics (dashboard_geral line 144, dashboard_ciclo_vendas lines 401-426) -/

/-- A record participates in cycle statistics when CICLO DE VENDAS is
non-null and strictly positive (`notna() & (... > 0)`). -/
def posCiclo (r : Record) : Bool :=
  match r.ciclo with
  | some c => decide (0 < c)
  | none => false

/-- The cycle view `df_ciclo` (line 406). -/
def dfCiclo (df : List Record) : List Record :=
  df.filter posCiclo

/-- Cycle values of the cycle view. -/
def cicloVals (df : List Record) : List ℚ :=
  (dfCiclo df).map (fun r => r.ciclo.getD 0)

/-- Insert into a sorted rational list. -/
def insertQ (x : ℚ) : List ℚ → List ℚ
  | [] => [x]
  | y :: ys => if x ≤ y then x :: y :: ys else y :: insertQ x ys

/-- Insertion sort on rationals, ascending. -/
def sortQ : List ℚ → List ℚ
  | [] => []
  | x :: xs => insertQ x (sortQ xs)

/-- Arithmetic mean of a list of rationals (pandas `.mean()` on a nonempty
series). -/
def meanQ (l : List ℚ) : ℚ :=
  l.sum / (l.length : ℚ)

/-- pandas `.median()`: middle element of the sorted values, or the mean of
the two middle elements at even length. -/
def medianQ (l : List ℚ) : ℚ :=
  let s := sortQ l
  if s.length % 2 = 1 then s.getD (s.length / 2) 0
  else (s.getD (s.length / 2 - 1) 0 + s.getD (s.length / 2) 0) / 2

/-- Minimum of a list of rationals (0 on the empty list, never consulted
there). -/
def minQ : List ℚ → ℚ
  | [] => 0
  | x :: xs => xs.foldl min x

/-- Maximum of a list of rationals. -/
def maxQ : List ℚ → ℚ
  | [] => 0
  | x :: xs => xs.foldl max x

/-- The four central-tendency figures of dashboard_ciclo_vendas
(lines 414-417). -/
structure CicloStats where
  mean : ℚ
  median : ℚ
  cmin : ℚ
  cmax : ℚ
deriving DecidableEq

/-- dashboard_ciclo_vendas headline statistics: when the cycle view is empty
the dashboard emits a warning and returns (lines 408-410), modeled as
`none`; otherwise the four statistics over the positive cycle values. -/
def cicloStats (df : List Record) : Option CicloStats :=
  if dfCiclo df = [] then none
  else some
    { mean := meanQ (cicloVals df)
    , median := medianQ (cicloVals df)
    , cmin := minQ (cicloVals df)
    , cmax := maxQ (cicloVals df) }

/-- dashboard_geral average cycle (lines 144 and 153): the mean over the
positive cycle values, displayed as N/A when that set is empty (the pandas
mean of an empty series is NaN, modeled as `none`). -/
def cicloMedio (df : List Record) : Option ℚ :=
  if dfCiclo df = [] then none else some (meanQ (cicloVals df))

/-! ### Date-range and categorical filters (main, lines 491-551) -/

/-- Keep-predicate of the scheduling-date filter (lines 504-505): pandas
comparisons with NaT are false, so a record with no DATA is excluded. -/
def agendKeep (lo hi : Date) (r : Record) : Bool :=
  match r.data with
  | none => false
  | some d => inRange lo hi d

/-- Scheduling-date filter application. -/
def agendFilter (lo hi : Date) (df : List Record) : List Record :=
  df.filter (agendKeep lo hi)

/-- Keep-predicate of the sale-date filter (lines 527-530): in range, or no
sale date at all (`mask_vendas | mask_sem_venda`). -/
def vendaKeep (lo hi : Date) (r : Record) : Bool :=
  match r.venda with
  | none => true
  | some d => inRange lo hi d

/-- Sale-date filter application. -/
def vendaFilter (lo hi : Date) (df : List Record) : List Record :=
  df.filter (vendaKeep lo hi)

/-- A record carries a sale date (`df['DIA DA VENDA'].notna()`). -/
def hasVenda (r : Record) : Bool :=
  r.venda.isSome

/-- The sale-date filter stage of main (lines 508-530): when the checkbox is
enabled, the date widget (and with it the filtering) only appears when at
least one record of the current frame has a sale date; otherwise the frame
passes through unchanged. -/
def saleStage (enabled : Bool) (lo hi : Date) (df : List Record) : List Record :=
  if enabled then
    if 0 < (df.filter hasVenda).length then vendaFilter lo hi df else df
  else df

/-- A categorical selector filter (lines 538-539, 544-545, 550-551): the
sentinel Todos leaves the frame unchanged, any other selection keeps the
rows whose field equals it. -/
def catFilter (get : Record → String) (sel : String) (df : List Record) : List Record :=
  if sel = "Todos" then df else df.filter (fun r => decide (get r = sel))

/-- The three option lists and the final frame produced by the categorical
filter section of main (lines 536-551). -/
structure FilterOutputs where
  produtos : List String
  funis : List String
  statusList : List String
  final : List Record
deriving DecidableEq

/-- The categorical filter section of main, starting from the frame left by
the date filters: each selector's option list is computed from the frame as
filtered so far, then the corresponding filter is applied before the next
option list is built. -/
def mainFilters (df0 : List Record) (selP selF selS : String) : FilterOutputs :=
  let produtos := "Todos" :: sortedUnique (df0.map (fun r => r.produto))
  let df1 := catFilter (fun r => r.produto) selP df0
  let funis := "Todos" :: sortedUnique (df1.map (fun r => r.funil))
  let df2 := catFilter (fun r => r.funil) selF df1
  let statusList := "Todos" :: sortedUnique (df2.map (fun r => r.status))
  let df3 := catFilter (fun r => r.status) selS df2
  { produtos := produtos, funis := funis, statusList := statusList, final := df3 }

/-! ### Composable filter predicates (for order independence) -/

/-- The filter predicates main applies to the frame: the two date ranges and
the three categorical selections. -/
inductive FilterSpec where
  | agendRange : Date → Date → FilterSpec
  | vendaRange : Date → Date → FilterSpec
  | catProduto : String → FilterSpec
  | catFunil : String → FilterSpec
  | catStatus : String → FilterSpec

/-- Application of one filter to a frame, as main does it. -/
def FilterSpec.apply : FilterSpec → List Record → List Record
  | FilterSpec.agendRange lo hi, df => agendFilter lo hi df
  | FilterSpec.vendaRange lo hi, df => vendaFilter lo hi df
  | FilterSpec.catProduto s, df => catFilter (fun r => r.produto) s df
  | FilterSpec.catFunil s, df => catFilter (fun r => r.funil) s df
  | FilterSpec.catStatus s, df => catFilter (fun r => r.status) s df

/-- The row predicate of one filter; the Todos sentinel keeps every row. -/
def FilterSpec.toPred : FilterSpec → Record → Bool
  | FilterSpec.agendRange lo hi => agendKeep lo hi
  | FilterSpec.vendaRange lo hi => vendaKeep lo hi
  | FilterSpec.catProduto s => fun r => decide (s = "Todos") || decide (r.produto = s)
  | FilterSpec.catFunil s => fun r => decide (s = "Todos") || decide (r.funil = s)
  | FilterSpec.catStatus s => fun r => decide (s = "Todos") || decide (r.status = s)

/-! ### Concrete inputs used by the closed statements below -/

/-- A raw VALOR string is unparseable when the normalized text (currency
decorations stripped, empty substituted by zero) is not a decimal numeral,
so that `pd.to_numeric(errors='coerce')` yields NaN. -/
@[reducible]
def unparseableValor (s : String) : Prop :=
  parseDecimal (emptyToZero (normalizeValor s)) = none

/-- Record of a closer with one scheduled meeting that was a no-show: zero
Call Realizada rows and zero won sales in its group. -/
def c1rec : Record :=
  { rec0 with closer := "Ana", status := "No Show", vendaRealizada := "Perda" }

/-- Lower bound of a concrete date range. -/
def c2lo : Date := { year := 2024, month := 1, day := 1 }

/-- Upper bound of a concrete date range. -/
def c2hi : Date := { year := 2024, month := 12, day := 31 }

/-- Record with product A coming from funnel X. -/
def c3r1 : Record := { rec0 with produto := "A", funil := "X" }

/-- Record with product B coming from funnel Y. -/
def c3r2 : Record := { rec0 with produto := "B", funil := "Y" }

/-- Header of the overview scenario matrix. -/
def c4hdr : List String :=
  ["DATA", "SDR", "CLOSER", "FUNIL", "STATUS", "VENDA REALIZADA", "VALOR"]

/-- Single data row of the overview scenario matrix. -/
def c4row : List String :=
  ["01/03/2024", "Ana", "Bruno", "Inbound", "Call Realizada", "Ganho", "R$ 1.000,00"]

/-- The record the overview scenario builds. -/
def c4rec : Record :=
  buildRecord (c4hdr.map strTrim) c4row

/-! ## Theorems -/

/-- C1 counterexample: a closer group with zero Call Realizada rows gets a
NaN conversion rate in the per-closer comparison table (dash-tm.py lines
243-245), not the 0 the claim requires: pandas divides the two count
columns without a zero guard. -/
theorem closer_table_rate_nan_on_zero_calls :
    callsRealizadas (List.filter (fun r => decide (r.closer = "Ana")) [c1rec]) = 0 ∧
    vendedorStats [c1rec]
      = [{ vendedor := "Ana", calls := 0, vendas := 0, receita := 0, taxa := PFloat.nan }] ∧
    PFloat.nan ≠ PFloat.val 0 := by
  refine ⟨by decide, by decide, by decide⟩

/-- C1 (corrected): the guarded scalar rates return 0 on a zero denominator
(overall show, conversion and no-show rates, and the headline rates built
from the same `guardedRate` pattern), but the per-closer comparison table
divides the group counts without a guard, so a group with zero Call
Realizada rows gets NaN (no sales) or infinity (sales without a Call
Realizada status) instead of 0 — in every case a value different from 0. -/
theorem zero_denominator_rate_policy :
    (∀ n : ℕ, guardedRate n 0 = 0) ∧
    (∀ df : List Record, callsRealizadas df = 0 → taxaConversao df = 0) ∧
    (∀ df : List Record, totalAgendamentos df = 0 → taxaShow df = 0 ∧ taxaNoShow df = 0) ∧
    (∀ df : List Record, ∀ k : String, (closerGroupRow df k).calls = 0 →
      ((closerGroupRow df k).taxa = PFloat.nan ∨ (closerGroupRow df k).taxa = PFloat.inf) ∧
      (closerGroupRow df k).taxa ≠ PFloat.val 0) := by
  refine ⟨?_, ?_, ?_, ?_⟩
  · intro n; simp [guardedRate]
  · intro df h; unfold taxaConversao; rw [h]; simp [guardedRate]
  · intro df h; unfold taxaShow taxaNoShow; rw [h]; simp [guardedRate]
  · intro df k h
    have h2 : callsRealizadas (List.filter (fun r => decide (r.closer = k)) df) = 0 := h
    have ht : (closerGroupRow df k).taxa
        = round1P (pmul100 (pdiv
            (vendasGanhas (List.filter (fun r => decide (r.closer = k)) df)) 0)) := by
      simp [closerGroupRow, h2]
    rcases Nat.eq_zero_or_pos (vendasGanhas (List.filter (fun r => decide (r.closer = k)) df))
      with hv | hv
    · rw [ht, hv]
      exact ⟨Or.inl rfl, by decide⟩
    · have hinf : pdiv (vendasGanhas (List.filter (fun r => decide (r.closer = k)) df)) 0
          = PFloat.inf := by
        simp [pdiv, Nat.pos_iff_ne_zero.mp hv]
      rw [ht, hinf]
      exact ⟨Or.inr rfl, by decide⟩

/-- C1 witness: the corrected statement evaluated at the no-show record. -/
theorem zero_denominator_rate_policy_witness :
    taxaConversao [c1rec] = 0 ∧ (closerGroupRow [c1rec] "Ana").taxa ≠ PFloat.val 0 :=
  ⟨zero_denominator_rate_policy.2.1 [c1rec] (by decide),
   (zero_denominator_rate_policy.2.2.2 [c1rec] "Ana" (by decide)).2⟩

/-- C2: an active scheduling-date filter excludes a record with no DATA and
keeps a record with DATA exactly when it lies in the closed range, while an
enabled sale-date filter keeps a record with no DIA DA VENDA and excludes
exactly the records whose sale date falls outside the closed range. -/
theorem date_filters_absent_date_policy (lo hi : Date) (df : List Record) (r : Record)
    (hmem : r ∈ df) :
    (r.data = none → r ∉ agendFilter lo hi df) ∧
    (∀ d, r.data = some d → (r ∈ agendFilter lo hi df ↔ inRange lo hi d = true)) ∧
    (r.venda = none → r ∈ vendaFilter lo hi df) ∧
    (∀ d, r.venda = some d → inRange lo hi d = false → r ∉ vendaFilter lo hi df) ∧
    (∀ d, r.venda = some d → inRange lo hi d = true → r ∈ vendaFilter lo hi df) := by
  refine ⟨?_, ?_, ?_, ?_, ?_⟩
  · intro h hmemf
    simp only [agendFilter, List.mem_filter] at hmemf
    simp [agendKeep, h] at hmemf
  · intro d hd
    simp only [agendFilter, List.mem_filter]
    constructor
    · intro hmemf
      have := hmemf.2
      simpa [agendKeep, hd] using this
    · intro hin
      exact ⟨hmem, by simp [agendKeep, hd, hin]⟩
  · intro h
    simp only [vendaFilter, List.mem_filter]
    exact ⟨hmem, by simp [vendaKeep, h]⟩
  · intro d hd hout hmemf
    simp only [vendaFilter, List.mem_filter] at hmemf
    have := hmemf.2
    simp [vendaKeep, hd, hout] at this
  · intro d hd hin
    simp only [vendaFilter, List.mem_filter]
    exact ⟨hmem, by simp [vendaKeep, hd, hin]⟩

/-- C2 witness: a record with neither date is dropped by the scheduling-date
filter and kept by the sale-date filter over a concrete 2024 range. -/
theorem date_filters_absent_date_policy_witness :
    rec0 ∉ agendFilter c2lo c2hi [rec0] ∧ rec0 ∈ vendaFilter c2lo c2hi [rec0] := by
  have h := date_filters_absent_date_policy c2lo c2hi [rec0] rec0 (by simp)
  exact ⟨h.1 rfl, h.2.2.1 rfl⟩

/-- C3 counterexample: with an active product filter the funnel option list
shrinks to the funnels of the selected product, so it is not computed from
the full unfiltered record set. -/
theorem funil_options_depend_on_produto_filter :
    (mainFilters [c3r1, c3r2] "A" "Todos" "Todos").funis = ["Todos", "X"] ∧
    (mainFilters [c3r1, c3r2] "Todos" "Todos" "Todos").funis = ["Todos", "X", "Y"] ∧
    (mainFilters [c3r1, c3r2] "A" "Todos" "Todos").funis
      ≠ (mainFilters [c3r1, c3r2] "Todos" "Todos" "Todos").funis := by
  refine ⟨by decide, by decide, by decide⟩

/-- C3 (corrected): the selector option lists are computed sequentially from
the progressively filtered frame: the product list reflects the frame left
by the date filters, the funnel list reflects that frame after the product
filter, the status list after product and funnel — each list is therefore
independent of its own and of later selections, but depends on the earlier
active filters rather than on the unfiltered universe. -/
theorem selector_options_follow_pipeline (df0 : List Record)
    (sP sF sF2 sS sS2 : String) :
    (mainFilters df0 sP sF sS).produtos
      = "Todos" :: sortedUnique (df0.map (fun r => r.produto)) ∧
    (mainFilters df0 sP sF sS).funis
      = "Todos" :: sortedUnique
          ((catFilter (fun r => r.produto) sP df0).map (fun r => r.funil)) ∧
    (mainFilters df0 sP sF sS).funis = (mainFilters df0 sP sF2 sS2).funis ∧
    (mainFilters df0 sP sF sS).statusList = (mainFilters df0 sP sF sS2).statusList :=
  ⟨rfl, rfl, rfl, rfl⟩

/-- C4: the one-row scenario matrix builds exactly one record with amount
1000 and status Call Realizada, and the overview metrics over it are one
realized call, one won sale, revenue 1000 and conversion rate 100. -/
theorem overview_scenario_single_row :
    loadData [c4hdr, c4row] = some [c4rec] ∧
    c4rec.status = "Call Realizada" ∧
    c4rec.valorNum = 1000 ∧
    totalAgendamentos [c4rec] = 1 ∧
    callsRealizadas [c4rec] = 1 ∧
    vendasGanhas [c4rec] = 1 ∧
    receitaTotal [c4rec] = 1000 ∧
    taxaConversao [c4rec] = 100 := by
  have hv : c4rec.valorNum = ((1000 : ℕ) : ℚ) + ((0 : ℕ) : ℚ) / (10 : ℚ) ^ 2 := rfl
  have hr : receitaTotal [c4rec] = c4rec.valorNum + 0 := rfl
  have hc : taxaConversao [c4rec] = ((1 : ℕ) : ℚ) / ((1 : ℕ) : ℚ) * 100 := rfl
  refine ⟨rfl, by decide, ?_, by decide, by decide, by decide, ?_, ?_⟩
  · rw [hv]; norm_num
  · rw [hr, hv]; norm_num
  · rw [hc]; norm_num

/-- C5: a VALOR cell that is empty, or whose normalized text is not a
decimal numeral, gets amount 0. -/
theorem empty_or_unparseable_amount_zero (s : String)
    (h : s = "" ∨ unparseableValor s) :
    parseAmount s = 0 := by
  rcases h with h | h
  · subst h; decide
  · simp [parseAmount, unparseableValor] at h ⊢
    simp [h]

/-- C5 witness: the empty cell and a concrete non-numeric cell both parse
to 0. -/
theorem empty_or_unparseable_amount_zero_witness :
    unparseableValor "abc" ∧ parseAmount "abc" = 0 ∧ parseAmount "" = 0 :=
  ⟨by decide,
   empty_or_unparseable_amount_zero "abc" (Or.inr (by decide)),
   empty_or_unparseable_amount_zero "" (Or.inl rfl)⟩

/-- C6: a date string that does not match the day/month/year layout, or
names an impossible calendar date, coerces to an absent date; the parser is
a total function, so no exception can interrupt the row or the dataset. -/
theorem unparseable_date_absent (s : String)
    (h : parseDMY s = none ∨ ∀ t, parseDMY s = some t → validDMY t = false) :
    parseDate s = none := by
  rcases h with h | h
  · simp [parseDate, h]
  · cases hp : parseDMY s with
    | none => simp [parseDate, hp]
    | some t =>
      obtain ⟨d, m, y⟩ := t
      simp [parseDate, hp, h (d, m, y) hp]

/-- C6 witness: an ISO-format string, a day-out-of-range string, and the
empty string all parse to the absent date. -/
theorem unparseable_date_absent_witness :
    parseDate "2024-03-01" = none ∧ parseDate "32/01/2024" = none ∧ parseDate "" = none := by
  refine ⟨unparseable_date_absent "2024-03-01" (Or.inl (by decide)),
          unparseable_date_absent "32/01/2024" (Or.inr ?_),
          unparseable_date_absent "" (Or.inl (by decide))⟩
  intro t ht
  have h32 : parseDMY "32/01/2024" = some (32, 1, 2024) := by decide
  rw [h32] at ht
  obtain rfl : (32, 1, 2024) = t := Option.some.inj ht
  decide

/-- C7: cycle statistics ignore records whose cycle is null or not strictly
positive, and when no record qualifies the result is the explicit
unavailable signal `none`, never a zero-valued statistic. -/
theorem cycle_stats_over_positive_only (df : List Record) (r : Record) :
    (dfCiclo df = [] → cicloStats df = none ∧ cicloMedio df = none) ∧
    (posCiclo r = false →
      cicloStats (r :: df) = cicloStats df ∧ cicloMedio (r :: df) = cicloMedio df) ∧
    ((∀ x ∈ df, posCiclo x = false) → cicloStats df = none) := by
  refine ⟨?_, ?_, ?_⟩
  · intro h
    exact ⟨by simp [cicloStats, h], by simp [cicloMedio, h]⟩
  · intro h
    have hd : dfCiclo (r :: df) = dfCiclo df := by
      simp [dfCiclo, List.filter_cons, h]
    exact ⟨by simp [cicloStats, cicloVals, hd], by simp [cicloMedio, cicloVals, hd]⟩
  · intro h
    have hd : dfCiclo df = [] := by
      simp only [dfCiclo]
      exact List.filter_eq_nil_iff.mpr (fun x hx => by simp [h x hx])
    simp [cicloStats, hd]

/-- C7 witness: a single record with no cycle value leaves the statistics
unavailable. -/
theorem cycle_stats_over_positive_only_witness :
    cicloStats [rec0] = none := by
  have h := cycle_stats_over_positive_only ([] : List Record) rec0
  have h1 : cicloStats ([] : List Record) = none := (h.1 (by decide)).1
  have h2 := (h.2.1 (by decide)).1
  rw [h2, h1]

/-- Every filter of main is the restriction of the frame to the rows
satisfying the filter's predicate (the Todos sentinel keeps every row). -/
theorem apply_eq_filter (f : FilterSpec) (df : List Record) :
    f.apply df = df.filter f.toPred := by
  cases f with
  | agendRange lo hi => rfl
  | vendaRange lo hi => rfl
  | catProduto s =>
    by_cases h : s = "Todos"
    · subst h; simp [FilterSpec.apply, FilterSpec.toPred, catFilter]
    · simp [FilterSpec.apply, FilterSpec.toPred, catFilter, h]
  | catFunil s =>
    by_cases h : s = "Todos"
    · subst h; simp [FilterSpec.apply, FilterSpec.toPred, catFilter]
    · simp [FilterSpec.apply, FilterSpec.toPred, catFilter, h]
  | catStatus s =>
    by_cases h : s = "Todos"
    · subst h; simp [FilterSpec.apply, FilterSpec.toPred, catFilter]
    · simp [FilterSpec.apply, FilterSpec.toPred, catFilter, h]

/-- C8: any two of the filters main applies commute — applying one then the
other gives the same frame in either order, because both restrict the frame
to the conjunction of their row predicates. -/
theorem filter_composition_commutes (f g : FilterSpec) (df : List Record) :
    FilterSpec.apply f (FilterSpec.apply g df) = FilterSpec.apply g (FilterSpec.apply f df) ∧
    FilterSpec.apply f (FilterSpec.apply g df)
      = df.filter (fun r => f.toPred r && g.toPred r) := by
  constructor
  · rw [apply_eq_filter, apply_eq_filter, apply_eq_filter, apply_eq_filter,
      List.filter_comm]
  · rw [apply_eq_filter, apply_eq_filter, List.filter_filter]

/-- C9: in the per-closer dashboard the comparison table (and with it both
charts, which are drawn from it) is the same for every choice of the closer
selector; the selection reaches only the headline metrics. -/
theorem closer_table_independent_of_selection (df : List Record) (s1 s2 : String) :
    (dashboardVendedores df s1).2 = (dashboardVendedores df s2).2 := rfl

/-- C10: when the sale-date filter is enabled but no record of the current
frame carries a sale date, the stage leaves the frame unchanged for every
candidate range. -/
theorem sale_filter_skipped_without_sale_dates (lo hi : Date) (df : List Record)
    (h : ∀ r ∈ df, r.venda = none) :
    saleStage true lo hi df = df := by
  have hf : df.filter hasVenda = [] :=
    List.filter_eq_nil_iff.mpr (fun r hr => by simp [hasVenda, h r hr])
  simp [saleStage, hf]

/-- C10 witness: a one-record frame without a sale date passes through the
enabled sale-date stage unchanged. -/
theorem sale_filter_skipped_without_sale_dates_witness :
    saleStage true c2lo c2hi [rec0] = [rec0] :=
  sale_filter_skipped_without_sale_dates c2lo c2hi [rec0]
    (by intro r hr; simp at hr; subst hr; rfl)

end DashTM
